import Mathlib

/-!
Verification of the schematic-component subsystem (`lcapy/schemcpts.py`).

The Python classes are shallowly embedded: component state that a method
reads (the option dictionary `self.opts`, the node list, the owning
schematic's tables) is passed explicitly; machine floats that only ever
hold exact decimal constants are modelled as rationals; Python exceptions
become an explicit error type threaded through `Except`.
-/

/-- Python exception kinds arising in the embedded code.  `keyError`,
`valueError` and `referenceError` are Python builtins; `configurationError`
does not occur anywhere in the source and is included only so that the
specification's error taxonomy can be stated and compared against what the
code actually raises. -/
inductive PyError where
  | keyError (key : String)
  | valueError (msg : String)
  | referenceError (name : String)
  | configurationError
  | notImplementedError (msg : String)
deriving DecidableEq

instance {ε α : Type} [DecidableEq ε] [DecidableEq α] :
    DecidableEq (Except ε α) := fun x y =>
  match x, y with
  | Except.ok a, Except.ok b =>
    if h : a = b then isTrue (by rw [h]) else
      isFalse (fun hc => h (Except.ok.inj hc))
  | Except.error a, Except.error b =>
    if h : a = b then isTrue (by rw [h]) else
      isFalse (fun hc => h (Except.error.inj hc))
  | Except.ok _, Except.error _ => isFalse (by intro hc; cases hc)
  | Except.error _, Except.ok _ => isFalse (by intro hc; cases hc)

/-- `self.opts`: the option dictionary, as an association list from option
keys to raw string values. -/
abbrev Opts := List (String × String)

/-- Python `key in self.opts`. -/
def hasKey (opts : Opts) (k : String) : Bool :=
  (opts.lookup k).isSome

/-- `self.opts['dir']`: raises `KeyError` when the orientation option is
absent, exactly as Python dictionary indexing does. -/
def Cpt.dir (opts : Opts) : Except PyError String :=
  match opts.lookup "dir" with
  | some d => Except.ok d
  | none => Except.error (PyError.keyError "dir")

/-- The `if self.right / elif self.down / elif self.left / elif self.up /
else raise ValueError` chain of `Cpt.angle`, mapping the orientation value
to the base angle. -/
def Cpt.baseAngle (d : String) : Except PyError ℚ :=
  if d = "right" then Except.ok 0
  else if d = "down" then Except.ok (-90)
  else if d = "left" then Except.ok 180
  else if d = "up" then Except.ok 90
  else Except.error (PyError.valueError ("Unknown orientation: " ++ d))

/-- `Cpt.angle`: base angle from the orientation option plus an optional
explicit `rotate` addend.  `float` stands for Python's `float(...)` string
parse, supplied as a parameter since it is a Python builtin. -/
def Cpt.angle (opts : Opts) (float : String → ℚ) : Except PyError ℚ :=
  match Cpt.dir opts with
  | Except.error e => Except.error e
  | Except.ok d =>
    match Cpt.baseAngle d with
    | Except.error e => Except.error e
    | Except.ok base =>
      match opts.lookup "rotate" with
      | some r => Except.ok (base + float r)
      | none => Except.ok base

/-- Result of `Cpt.R`: either one of the exact matrices from `Rdict`, or
the floating-point trigonometric fallback (kept symbolic, tagged with the
angle, since no claim exercises it). -/
inductive Rresult where
  | exact (m : (ℚ × ℚ) × (ℚ × ℚ))
  | approx (angle : ℚ)
deriving DecidableEq

/-- `Cpt.R`: the `Rdict` lookup of the rotation matrix for the five listed
angles, with the trignometric fallback for any other angle. -/
def Cpt.R (angle : ℚ) : Rresult :=
  if angle = 0 then Rresult.exact ((1, 0), (0, 1))
  else if angle = 90 then Rresult.exact ((0, 1), (-1, 0))
  else if angle = 180 then Rresult.exact ((-1, 0), (0, -1))
  else if angle = -180 then Rresult.exact ((-1, 0), (0, -1))
  else if angle = -90 then Rresult.exact ((0, -1), (1, 0))
  else Rresult.approx angle

/-- One row of `np.dot(coords, R)`: the point `p` right-multiplied by the
2x2 matrix `m`. -/
def Cpt.rotatePoint (p : ℚ × ℚ) (m : (ℚ × ℚ) × (ℚ × ℚ)) : ℚ × ℚ :=
  (p.1 * m.1.1 + p.2 * m.2.1, p.1 * m.1.2 + p.2 * m.2.2)

/-- `Cpt.tcoords`: transformed coordinates, `np.dot(coords, R)`. -/
def Cpt.tcoords (coords : List (ℚ × ℚ)) (m : (ℚ × ℚ) × (ℚ × ℚ)) :
    List (ℚ × ℚ) :=
  coords.map (fun p => Cpt.rotatePoint p m)

/-- `Cpt.xvals`: first column of the transformed coordinates. -/
def Cpt.xvals (tc : List (ℚ × ℚ)) : List ℚ :=
  tc.map Prod.fst

/-- `Cpt.yvals`: second column of the transformed coordinates. -/
def Cpt.yvals (tc : List (ℚ × ℚ)) : List ℚ :=
  tc.map Prod.snd

/-- C1 counterexample: with orientation `down` and no `rotate` option the
angle is `-90` and the rotation matrix is `((0,-1),(1,0))`, not the
`((0,1),(-1,0))` the claim asserts for `down` (that matrix belongs to
`up`). -/
theorem C1_counterexample :
    Cpt.angle [("dir", "down")] (fun _ => 0) = Except.ok (-90) ∧
    Cpt.R (-90) = Rresult.exact ((0, -1), (1, 0)) ∧
    Rresult.exact (((0 : ℚ), (-1 : ℚ)), ((1 : ℚ), (0 : ℚ))) ≠
      Rresult.exact (((0 : ℚ), (1 : ℚ)), ((-1 : ℚ), (0 : ℚ))) := by
  refine ⟨by decide, by decide, by decide⟩

/-- C1 (amended): with a cardinal orientation and no `rotate` option,
`angle` returns exactly one of {0, 90, 180, -90} (right 0, down -90,
left 180, up 90) and `R` is the exact integer orthogonal matrix for that
angle; in particular right yields `((1,0),(0,1))`, down yields
`((0,-1),(1,0))` and up yields `((0,1),(-1,0))`. -/
theorem C1_cardinal_angle_and_exact_matrix (opts : Opts)
    (float : String → ℚ) (d : String)
    (hd : opts.lookup "dir" = some d)
    (hr : opts.lookup "rotate" = none)
    (hc : d = "right" ∨ d = "down" ∨ d = "left" ∨ d = "up") :
    ∃ a : ℚ, Cpt.angle opts float = Except.ok a ∧
      (a = 0 ∨ a = 90 ∨ a = 180 ∨ a = -90) ∧
      (d = "right" → a = 0 ∧ Cpt.R a = Rresult.exact ((1, 0), (0, 1))) ∧
      (d = "down" → a = -90 ∧ Cpt.R a = Rresult.exact ((0, -1), (1, 0))) ∧
      (d = "left" → a = 180 ∧ Cpt.R a = Rresult.exact ((-1, 0), (0, -1))) ∧
      (d = "up" → a = 90 ∧ Cpt.R a = Rresult.exact ((0, 1), (-1, 0))) := by
  rcases hc with h | h | h | h <;> subst h <;>
    simp [Cpt.angle, Cpt.dir, Cpt.baseAngle, hd, hr] <;> decide

/-- C1 witness: the amended theorem applied at orientation `down`. -/
theorem C1_witness :
    ∃ a : ℚ, Cpt.angle [("dir", "down")] (fun _ => 0) = Except.ok a ∧
      (a = 0 ∨ a = 90 ∨ a = 180 ∨ a = -90) ∧
      ("down" = "right" → a = 0 ∧ Cpt.R a = Rresult.exact ((1, 0), (0, 1))) ∧
      ("down" = "down" → a = -90 ∧ Cpt.R a = Rresult.exact ((0, -1), (1, 0))) ∧
      ("down" = "left" → a = 180 ∧ Cpt.R a = Rresult.exact ((-1, 0), (0, -1))) ∧
      ("down" = "up" → a = 90 ∧ Cpt.R a = Rresult.exact ((0, 1), (-1, 0))) :=
  C1_cardinal_angle_and_exact_matrix [("dir", "down")] (fun _ => 0) "down"
    (by decide) (by decide) (by decide)

/-- C3 counterexample: an unrecognized orientation raises `ValueError`,
and an absent orientation raises `KeyError` — neither is the
`ConfigurationError` the claim names (no such exception exists in the
code). -/
theorem C3_counterexample :
    Cpt.angle [("dir", "diagonal")] (fun _ => 0) =
      Except.error (PyError.valueError "Unknown orientation: diagonal") ∧
    Cpt.angle [] (fun _ => 0) = Except.error (PyError.keyError "dir") ∧
    Cpt.angle [("dir", "diagonal")] (fun _ => 0) ≠
      Except.error PyError.configurationError ∧
    Cpt.angle ([] : Opts) (fun _ => 0) ≠
      Except.error PyError.configurationError := by
  refine ⟨by decide, by decide, by decide, by decide⟩

/-- C3 (amended): requesting the angle with the orientation option absent
raises `KeyError('dir')`, and with an orientation other than the four
cardinal values raises `ValueError('Unknown orientation: ...')` — not
`ConfigurationError`. -/
theorem C3_orientation_errors (opts : Opts) (float : String → ℚ) :
    (opts.lookup "dir" = none →
      Cpt.angle opts float = Except.error (PyError.keyError "dir")) ∧
    (∀ d : String, opts.lookup "dir" = some d →
      d ≠ "right" → d ≠ "down" → d ≠ "left" → d ≠ "up" →
      Cpt.angle opts float =
        Except.error (PyError.valueError ("Unknown orientation: " ++ d))) := by
  constructor
  · intro h
    simp [Cpt.angle, Cpt.dir, h]
  · intro d hd h1 h2 h3 h4
    simp [Cpt.angle, Cpt.dir, Cpt.baseAngle, hd, h1, h2, h3, h4]

/-- C3 witness: the amended theorem applied at a missing option and at the
concrete unrecognized orientation value `diagonal`. -/
theorem C3_witness :
    Cpt.angle ([] : Opts) (fun _ => 0) =
      Except.error (PyError.keyError "dir") ∧
    Cpt.angle [("dir", "diagonal")] (fun _ => 0) =
      Except.error (PyError.valueError "Unknown orientation: diagonal") :=
  ⟨(C3_orientation_errors [] (fun _ => 0)).1 (by decide),
   (C3_orientation_errors [("dir", "diagonal")] (fun _ => 0)).2 "diagonal"
     (by decide) (by decide) (by decide) (by decide) (by decide)⟩

/-- An element as seen by `K.dnodes`: only its electrical node list is
consulted. -/
structure Element where
  nodes : List String
deriving DecidableEq

/-- `K.dnodes`: looks the two stored inductor names up in the owning
schematic's element mapping and concatenates their node lists.

Modelled from the spec: the schematic class owning `sch.elements` is not
part of the source here; per the spec's §4.5/§7 contract a lookup of an
undeclared or not-yet-declared name fails with `ReferenceError` rather
than yielding a silent `None`. -/
def K.dnodes (elements : List (String × Element)) (Lname1 Lname2 : String) :
    Except PyError (List String) :=
  match elements.lookup Lname1 with
  | none => Except.error (PyError.referenceError Lname1)
  | some L1 =>
    match elements.lookup Lname2 with
    | none => Except.error (PyError.referenceError Lname2)
    | some L2 => Except.ok (L1.nodes ++ L2.nodes)

/-- C2: if either referenced inductor name is absent from the schematic's
element mapping, `K.dnodes` fails with `ReferenceError`; if both are
present, it returns `L1.nodes ++ L2.nodes`, which has 4 entries when each
inductor has its two terminal nodes. -/
theorem C2_mutual_coupling_dnodes (elements : List (String × Element))
    (Lname1 Lname2 : String) :
    (elements.lookup Lname1 = none →
      K.dnodes elements Lname1 Lname2 =
        Except.error (PyError.referenceError Lname1)) ∧
    (∀ L1, elements.lookup Lname1 = some L1 →
      elements.lookup Lname2 = none →
      K.dnodes elements Lname1 Lname2 =
        Except.error (PyError.referenceError Lname2)) ∧
    (∀ L1 L2, elements.lookup Lname1 = some L1 →
      elements.lookup Lname2 = some L2 →
      K.dnodes elements Lname1 Lname2 = Except.ok (L1.nodes ++ L2.nodes) ∧
      (L1.nodes.length = 2 → L2.nodes.length = 2 →
        (L1.nodes ++ L2.nodes).length = 4)) := by
  refine ⟨fun h => ?_, fun L1 h1 h2 => ?_, fun L1 L2 h1 h2 => ⟨?_, ?_⟩⟩
  · simp [K.dnodes, h]
  · simp [K.dnodes, h1, h2]
  · simp [K.dnodes, h1, h2]
  · intro e1 e2
    simp [e1, e2]

/-- C2 witness: a concrete schematic where `L1` is declared but `L2` is
not (lookup error), and one where both are declared (nodes
concatenated). -/
theorem C2_witness :
    K.dnodes [("L1", Element.mk ["1", "2"])] "L1" "L2" =
      Except.error (PyError.referenceError "L2") ∧
    K.dnodes [("L1", Element.mk ["1", "2"]), ("L2", Element.mk ["3", "4"])]
        "L1" "L2" = Except.ok ["1", "2", "3", "4"] ∧
    ([("1" : String), "2"] ++ ["3", "4"]).length = 4 :=
  ⟨(C2_mutual_coupling_dnodes [("L1", Element.mk ["1", "2"])] "L1" "L2").2.1
      (Element.mk ["1", "2"]) (by decide) (by decide),
   ((C2_mutual_coupling_dnodes
        [("L1", Element.mk ["1", "2"]), ("L2", Element.mk ["3", "4"])]
        "L1" "L2").2.2 (Element.mk ["1", "2"]) (Element.mk ["3", "4"])
      (by decide) (by decide)).1,
   ((C2_mutual_coupling_dnodes
        [("L1", Element.mk ["1", "2"]), ("L2", Element.mk ["3", "4"])]
        "L1" "L2").2.2 (Element.mk ["1", "2"]) (Element.mk ["3", "4"])
      (by decide) (by decide)).2 (by decide) (by decide)⟩

/-- The source-type tags special-cased in `OnePort.draw`. -/
def sourceTypes : List String := ["V", "I", "E", "F", "G", "H"]

/-- The node order referenced by the drawing command emitted by
`OnePort.draw`: the `n1, n2 = n2, n1` swap runs exactly when the
component's type is one of the source types. -/
def OnePort.drawEndpoints (type : String) (n1 n2 : String) :
    String × String :=
  if type ∈ sourceTypes then (n2, n1) else (n1, n2)

/-- The final `\draw (n1) to [...] (n2);` line of `OnePort.draw`, with the
bracketed option text already assembled in `mid`. -/
def OnePort.drawCmd (endpoints : String × String) (mid : String) : String :=
  "  \\draw (" ++ endpoints.1 ++ ") to [" ++ mid ++ "] (" ++
    endpoints.2 ++ ");\n"

/-- C4: source-type one-ports (V, I, E, F, G, H) emit the drawing command
with the two terminal node references swapped relative to the stored node
order; every other one-port type emits them in stored order. -/
theorem C4_source_one_ports_swap_nodes (type n1 n2 mid : String) :
    (type ∈ sourceTypes →
      OnePort.drawEndpoints type n1 n2 = (n2, n1) ∧
      OnePort.drawCmd (OnePort.drawEndpoints type n1 n2) mid =
        "  \\draw (" ++ n2 ++ ") to [" ++ mid ++ "] (" ++ n1 ++ ");\n") ∧
    (type ∉ sourceTypes →
      OnePort.drawEndpoints type n1 n2 = (n1, n2) ∧
      OnePort.drawCmd (OnePort.drawEndpoints type n1 n2) mid =
        "  \\draw (" ++ n1 ++ ") to [" ++ mid ++ "] (" ++ n2 ++ ");\n") := by
  constructor
  · intro h
    simp [OnePort.drawEndpoints, OnePort.drawCmd, h]
  · intro h
    simp [OnePort.drawEndpoints, OnePort.drawCmd, h]

/-- C4 witness: a voltage source swaps its endpoints, a resistor does
not. -/
theorem C4_witness :
    OnePort.drawEndpoints "V" "np" "nm" = ("nm", "np") ∧
    OnePort.drawEndpoints "R" "a" "b" = ("a", "b") :=
  ⟨((C4_source_one_ports_swap_nodes "V" "np" "nm" "V").1 (by decide)).1,
   ((C4_source_one_ports_swap_nodes "R" "a" "b" "R").2 (by decide)).1⟩

/-- The `'implicit' in self.opts or 'ground' in self.opts or 'sground' in
self.opts` test shared by `Wire.coords`, `Wire.vnodes` and `Wire.draw`. -/
def Wire.isImplicit (opts : Opts) : Bool :=
  hasKey opts "implicit" || hasKey opts "ground" || hasKey opts "sground"

/-- `Wire.coords`: a single point for an implicit-connection wire, the
ordinary one-port pair otherwise. -/
def Wire.coords (opts : Opts) : List (ℚ × ℚ) :=
  if Wire.isImplicit opts then [(0, 0)] else [(0, 0), (1, 0)]

/-- `Wire.vnodes`: only the first electrical node for an
implicit-connection wire, all nodes otherwise. -/
def Wire.vnodes (opts : Opts) (nodes : List String) : List String :=
  if Wire.isImplicit opts then [nodes.getD 0 ""] else nodes

/-- C6: a Wire with the `ground` option (or `implicit` or `sground`)
reports exactly one coordinate point and exactly one visible node — the
first electrical node — whatever else (orientation included) the option
dictionary holds; a Wire without any of these options reports the ordinary
pair `((0,0),(1,0))` and both nodes. -/
theorem C6_wire_implicit_single_node (opts : Opts) (n1 n2 : String) :
    (hasKey opts "ground" = true ∨ hasKey opts "implicit" = true ∨
        hasKey opts "sground" = true →
      Wire.coords opts = [(0, 0)] ∧ (Wire.coords opts).length = 1 ∧
      Wire.vnodes opts [n1, n2] = [n1] ∧
      (Wire.vnodes opts [n1, n2]).length = 1) ∧
    (hasKey opts "ground" = false → hasKey opts "implicit" = false →
      hasKey opts "sground" = false →
      Wire.coords opts = [(0, 0), (1, 0)] ∧
      Wire.vnodes opts [n1, n2] = [n1, n2]) := by
  constructor
  · intro h
    have himp : Wire.isImplicit opts = true := by
      rcases h with h | h | h <;> simp [Wire.isImplicit, h]
    simp [Wire.coords, Wire.vnodes, himp]
  · intro h1 h2 h3
    have himp : Wire.isImplicit opts = false := by
      simp [Wire.isImplicit, h1, h2, h3]
    simp [Wire.coords, Wire.vnodes, himp]

/-- C6 witness: a grounded wire oriented `up` reports one point and one
node; a plain wire reports two of each. -/
theorem C6_witness :
    Wire.coords [("dir", "up"), ("ground", "")] = [(0, 0)] ∧
    (Wire.coords [("dir", "up"), ("ground", "")]).length = 1 ∧
    Wire.vnodes [("dir", "up"), ("ground", "")] ["3", "0"] = ["3"] ∧
    (Wire.vnodes [("dir", "up"), ("ground", "")] ["3", "0"]).length = 1 ∧
    Wire.coords [("dir", "right")] = [(0, 0), (1, 0)] ∧
    Wire.vnodes [("dir", "right")] ["1", "2"] = ["1", "2"] := by
  have h1 := (C6_wire_implicit_single_node
      [("dir", "up"), ("ground", "")] "3" "0").1 (Or.inl (by decide))
  have h2 := (C6_wire_implicit_single_node [("dir", "right")] "1" "2").2
      (by decide) (by decide) (by decide)
  exact ⟨h1.1, h1.2.1, h1.2.2.1, h1.2.2.2, h2.1, h2.2⟩

/-- `label_pos` as computed by `OnePort.draw`: starts as `_`; for source
types it flips to `^` when the component is horizontal, for other types
when the component is vertical (`horizontal` is `dir in (left, right)`,
`vertical` is `dir in (left, down)`). -/
def OnePort.labelPos (type d : String) : String :=
  if type ∈ sourceTypes then
    (if d = "left" ∨ d = "right" then "^" else "_")
  else
    (if d = "left" ∨ d = "down" then "^" else "_")

/-- The default-label generation of `OnePort.draw`: `l<pos>={id=value}`
when both label kinds are enabled and non-empty, then id-only, then
value-only, then empty. -/
def OnePort.defaultLabel (label_ids label_values : Bool)
    (id_label value_label label_pos : String) : String :=
  if label_ids ∧ label_values ∧ id_label ≠ "" ∧ value_label ≠ "" then
    "l" ++ label_pos ++ "=\x7b" ++ id_label ++ "=" ++ value_label ++ "\x7d"
  else if label_ids ∧ id_label ≠ "" then
    "l" ++ label_pos ++ "=" ++ id_label
  else if label_values ∧ value_label ≠ "" then
    "l" ++ label_pos ++ "=" ++ value_label
  else ""

/-- The override step of `OnePort.draw`: an explicit label option
(`self.label_str`, non-empty when an `l` option was given) replaces the
generated default verbatim. -/
def OnePort.labelStr (defaultLabel explicit : String) : String :=
  if explicit ≠ "" then explicit else defaultLabel

/-- C7: for a one-port with orientation `right` and no explicit label
option, the default label is `l<pos>={id=value}` when both label flags are
on and both labels non-empty, `l<pos>=id` when only id-labels are on, and
empty when both are off; an explicit label option overrides the default
verbatim. -/
theorem C7_default_label (type id_label value_label : String)
    (h1 : id_label ≠ "") (h2 : value_label ≠ "") :
    OnePort.labelStr
        (OnePort.defaultLabel true true id_label value_label
          (OnePort.labelPos type "right")) "" =
      "l" ++ OnePort.labelPos type "right" ++ "=\x7b" ++ id_label ++ "=" ++
        value_label ++ "\x7d" ∧
    OnePort.labelStr
        (OnePort.defaultLabel true false id_label value_label
          (OnePort.labelPos type "right")) "" =
      "l" ++ OnePort.labelPos type "right" ++ "=" ++ id_label ∧
    OnePort.labelStr
        (OnePort.defaultLabel false false id_label value_label
          (OnePort.labelPos type "right")) "" = "" ∧
    (∀ explicit : String, explicit ≠ "" →
      OnePort.labelStr
          (OnePort.defaultLabel true true id_label value_label
            (OnePort.labelPos type "right")) explicit = explicit) := by
  refine ⟨?_, ?_, ?_, fun explicit he => ?_⟩
  · simp [OnePort.labelStr, OnePort.defaultLabel, h1, h2]
  · simp [OnePort.labelStr, OnePort.defaultLabel, h1, h2]
  · simp [OnePort.labelStr, OnePort.defaultLabel]
  · simp [OnePort.labelStr, he]

/-- C7 witness: the theorem applied to a resistor labelled `R1` with value
`R`; orientation `right` places the label below (`l_`). -/
theorem C7_witness :
    OnePort.labelStr
        (OnePort.defaultLabel true true "R1" "R"
          (OnePort.labelPos "R" "right")) "" = "l_=\x7bR1=R\x7d" ∧
    OnePort.labelStr
        (OnePort.defaultLabel true false "R1" "R"
          (OnePort.labelPos "R" "right")) "" = "l_=R1" ∧
    OnePort.labelStr
        (OnePort.defaultLabel false false "R1" "R"
          (OnePort.labelPos "R" "right")) "" = "" ∧
    OnePort.labelStr
        (OnePort.defaultLabel true true "R1" "R"
          (OnePort.labelPos "R" "right")) "l^=custom" = "l^=custom" := by
  have h := C7_default_label "R" "R1" "R" (by decide) (by decide)
  exact ⟨h.1, h.2.1, h.2.2.1, h.2.2.2 "l^=custom" (by decide)⟩

/-- The doubly nested pair loop of `Cpt.xlink`/`Cpt.ylink` over the drawn
nodes: `for m1, n1 in enumerate(dnodes): for m2, n2 in
enumerate(dnodes[m1+1:], m1+1): if vals[m2] == vals[m1]: graphs.link(n1,
n2)`, returned as the list of registered links. -/
def Cpt.linkCalls (dnodes : List String) (vals : List ℚ) :
    List (String × String) :=
  (List.range dnodes.length).flatMap fun m1 =>
    (List.range' (m1 + 1) (dnodes.length - (m1 + 1))).filterMap fun m2 =>
      if vals.getD m2 0 = vals.getD m1 0 then
        some (dnodes.getD m1 "", dnodes.getD m2 "")
      else none

/-- The doubly nested pair loop of `Cpt.xplace`/`Cpt.yplace`:
`graphs.add(n1, n2, (vals[m2] - vals[m1]) * size)` for every pair, as the
list of registered placement constraints. -/
def Cpt.placeCalls (dnodes : List String) (vals : List ℚ) (size : ℚ) :
    List (String × String × ℚ) :=
  (List.range dnodes.length).flatMap fun m1 =>
    (List.range' (m1 + 1) (dnodes.length - (m1 + 1))).map fun m2 =>
      (dnodes.getD m1 "", dnodes.getD m2 "",
        (vals.getD m2 0 - vals.getD m1 0) * size)

/-- `Cpt.xlink`: link registration on the x axis. -/
def Cpt.xlink (dnodes : List String) (tc : List (ℚ × ℚ)) :
    List (String × String) :=
  Cpt.linkCalls dnodes (Cpt.xvals tc)

/-- `Cpt.ylink`: link registration on the y axis. -/
def Cpt.ylink (dnodes : List String) (tc : List (ℚ × ℚ)) :
    List (String × String) :=
  Cpt.linkCalls dnodes (Cpt.yvals tc)

/-- `Cpt.xplace`: placement-constraint registration on the x axis. -/
def Cpt.xplace (dnodes : List String) (tc : List (ℚ × ℚ)) (size : ℚ) :
    List (String × String × ℚ) :=
  Cpt.placeCalls dnodes (Cpt.xvals tc) size

/-- `Cpt.yplace`: placement-constraint registration on the y axis. -/
def Cpt.yplace (dnodes : List String) (tc : List (ℚ × ℚ)) (size : ℚ) :
    List (String × String × ℚ) :=
  Cpt.placeCalls dnodes (Cpt.yvals tc) size

/-- C5 counterexample: a one-port oriented `up` has both drawn nodes at
the same transformed x coordinate; a must-coincide link is registered, yet
`xplace` still registers a placement constraint (of value 0) for that
coinciding pair — refuting "otherwise, and only otherwise". -/
theorem C5_counterexample :
    Cpt.angle [("dir", "up")] (fun _ => 0) = Except.ok 90 ∧
    Cpt.R 90 = Rresult.exact ((0, 1), (-1, 0)) ∧
    Cpt.xvals (Cpt.tcoords [(0, 0), (1, 0)] ((0, 1), (-1, 0))) = [0, 0] ∧
    Cpt.xlink ["1", "2"] (Cpt.tcoords [(0, 0), (1, 0)] ((0, 1), (-1, 0))) =
      [("1", "2")] ∧
    Cpt.xplace ["1", "2"] (Cpt.tcoords [(0, 0), (1, 0)] ((0, 1), (-1, 0)))
        1 = [("1", "2", 0)] ∧
    Cpt.xplace ["1", "2"] (Cpt.tcoords [(0, 0), (1, 0)] ((0, 1), (-1, 0)))
        1 ≠ [] := by
  have htc : Cpt.tcoords [(0, 0), (1, 0)] ((0, 1), (-1, 0)) =
      [(0, 0), (0, 1)] := by
    norm_num [Cpt.tcoords, Cpt.rotatePoint]
  refine ⟨by decide, by decide, ?_, ?_, ?_, ?_⟩
  · rw [htc]; norm_num [Cpt.xvals]
  · rw [htc]
    norm_num [Cpt.xlink, Cpt.linkCalls, Cpt.xvals, List.range',
      List.range_succ]
    decide
  · rw [htc]
    norm_num [Cpt.xplace, Cpt.placeCalls, Cpt.xvals, List.range',
      List.range_succ]
  · rw [htc]
    norm_num [Cpt.xplace, Cpt.placeCalls, Cpt.xvals, List.range',
      List.range_succ]

/-- C5 (amended): for every pair of drawn-node indices `m1 < m2`, a
must-coincide link is registered exactly for the pairs whose values on the
axis coincide, while a placement constraint of value
`(vals[m2] - vals[m1]) * size` is registered for every pair —
including the coinciding ones, where its value is 0. -/
theorem C5_link_iff_coincide_place_always (dnodes : List String)
    (vals : List ℚ) (size : ℚ) (m1 m2 : Nat)
    (h12 : m1 < m2) (h2 : m2 < dnodes.length) :
    (vals.getD m2 0 = vals.getD m1 0 →
      (dnodes.getD m1 "", dnodes.getD m2 "") ∈ Cpt.linkCalls dnodes vals) ∧
    ((dnodes.getD m1 "", dnodes.getD m2 "",
        (vals.getD m2 0 - vals.getD m1 0) * size) ∈
      Cpt.placeCalls dnodes vals size) ∧
    (∀ p ∈ Cpt.linkCalls dnodes vals, ∃ k1 k2 : Nat, k1 < k2 ∧
      k2 < dnodes.length ∧ vals.getD k2 0 = vals.getD k1 0 ∧
      p = (dnodes.getD k1 "", dnodes.getD k2 "")) := by
  refine ⟨fun hc => ?_, ?_, fun p hp => ?_⟩
  · unfold Cpt.linkCalls
    refine List.mem_flatMap.mpr ⟨m1, List.mem_range.mpr (lt_trans h12 h2),
      List.mem_filterMap.mpr ⟨m2, List.mem_range'_1.mpr ⟨by omega, by omega⟩,
        ?_⟩⟩
    rw [if_pos hc]
  · unfold Cpt.placeCalls
    exact List.mem_flatMap.mpr ⟨m1, List.mem_range.mpr (lt_trans h12 h2),
      List.mem_map.mpr ⟨m2, List.mem_range'_1.mpr ⟨by omega, by omega⟩, rfl⟩⟩
  · unfold Cpt.linkCalls at hp
    obtain ⟨k1, hk1, hmem⟩ := List.mem_flatMap.mp hp
    obtain ⟨k2, hk2, hfk⟩ := List.mem_filterMap.mp hmem
    have hk1r := List.mem_range.mp hk1
    have hk2r := List.mem_range'_1.mp hk2
    by_cases hcc : vals.getD k2 0 = vals.getD k1 0
    · rw [if_pos hcc] at hfk
      exact ⟨k1, k2, by omega, by omega, hcc, (Option.some.inj hfk).symm⟩
    · rw [if_neg hcc] at hfk
      cases hfk

/-- C5 witness: the amended theorem applied to the concrete coinciding
pair of the `up`-oriented one-port. -/
theorem C5_witness :
    ((0 : ℚ) = (0 : ℚ) →
      (("1", "2") : String × String) ∈ Cpt.linkCalls ["1", "2"] [0, 0]) ∧
    (("1", "2", ((0 : ℚ) - 0) * 1) ∈ Cpt.placeCalls ["1", "2"] [0, 0] 1) := by
  have h := C5_link_iff_coincide_place_always ["1", "2"] [0, 0] 1 0 1
    (by decide) (by decide)
  exact ⟨fun _ => h.1 (by decide), h.2.1⟩

/-- `Cpt.anon`: the per-type auto-naming counter on the owning schematic
(`sch.anon`, a dictionary defaulting to 0), incremented and returned as a
decimal string.  The updated counter table is returned alongside. -/
def Cpt.anon (m : String → Nat) (t : String) : (String → Nat) × String :=
  (fun s => if s = t then m t + 1 else m s, toString (m t + 1))

/-- The counter values produced by `n` successive `anon` calls for the
same type, starting from counter table `m`. -/
def Cpt.anonNums (m : String → Nat) (t : String) : Nat → List Nat
  | 0 => []
  | n + 1 => (m t + 1) :: Cpt.anonNums (Cpt.anon m t).1 t n

/-- The id strings produced by `n` successive `anon` calls for the same
type. -/
def Cpt.anonIds (m : String → Nat) (t : String) : Nat → List String
  | 0 => []
  | n + 1 => (Cpt.anon m t).2 :: Cpt.anonIds (Cpt.anon m t).1 t n

/-- The auto-generated id built in `Cpt.__init__`:
`cpt_id = '@' + self.anon(cpt_type)`. -/
def Cpt.autoId (m : String → Nat) (t : String) : String :=
  "@" ++ (Cpt.anon m t).2

theorem Cpt.anonNums_eq (t : String) :
    ∀ (n : Nat) (m : String → Nat),
      Cpt.anonNums m t n = (List.range n).map (fun k => m t + k + 1) := by
  intro n
  induction n with
  | zero => intro m; rfl
  | succ n ih =>
    intro m
    have hm : (Cpt.anon m t).1 t = m t + 1 := by simp [Cpt.anon]
    rw [Cpt.anonNums, ih, hm, List.range_succ_eq_map, List.map_cons,
      List.map_map]
    refine congrArg (fun l => (m t + 1) :: l) ?_
    exact List.map_congr_left (fun k _ => by simp [Function.comp]; omega)

theorem Cpt.anonIds_eq (t : String) :
    ∀ (n : Nat) (m : String → Nat),
      Cpt.anonIds m t n = (Cpt.anonNums m t n).map toString := by
  intro n
  induction n with
  | zero => intro m; rfl
  | succ n ih =>
    intro m
    rw [Cpt.anonIds, Cpt.anonNums, List.map_cons, ih]
    rfl

/-- C8: the auto-naming counter hands out strictly increasing integers.
From a fresh schematic the ids for a type are `1, 2, ..., n` in order;
from any counter state they continue above everything already issued
(monotonic counter, so an id is never reused even if earlier elements
are removed — nothing ever decrements the table); calls for other types
leave the counter untouched; and `__init__` prefixes the issued number
with the `@` marker. -/
theorem C8_anon_ids_strictly_increasing (t : String) (n : Nat)
    (m : String → Nat) :
    Cpt.anonNums (fun _ => 0) t n = (List.range n).map (fun k => k + 1) ∧
    Cpt.anonNums m t n = (List.range n).map (fun k => m t + k + 1) ∧
    Cpt.anonIds m t n = (Cpt.anonNums m t n).map toString ∧
    List.Pairwise (· < ·) (Cpt.anonNums m t n) ∧
    (∀ v ∈ Cpt.anonNums (fun _ => 0) t n, 1 ≤ v) ∧
    (∀ t2, t2 ≠ t → (Cpt.anon m t2).1 t = m t) ∧
    Cpt.autoId m t = "@" ++ toString (m t + 1) := by
  refine ⟨?_, Cpt.anonNums_eq t n m, Cpt.anonIds_eq t n m, ?_, ?_, ?_, rfl⟩
  · rw [Cpt.anonNums_eq]
    exact List.map_congr_left (fun k _ => by omega)
  · rw [Cpt.anonNums_eq]
    exact (List.pairwise_lt_range n).map _ (fun a b h => by omega)
  · intro v hv
    rw [Cpt.anonNums_eq] at hv
    obtain ⟨k, _, hk⟩ := List.mem_map.mp hv
    omega
  · intro t2 h2
    simp [Cpt.anon]
    intro h
    exact absurd h.symm h2

/-- The attributes set by `Cpt.__init__` that naming depends on: `self.id`
is assigned the constructor's `cpt_id` argument before the auto-generation
branch, `self.name` is built from the (possibly regenerated) local
variable. -/
structure InitResult where
  id : String
  name : String
deriving DecidableEq

/-- The id/name assignment of `Cpt.__init__`: `self.id = cpt_id`, then
`if cpt_id == '' and sch is not None: cpt_id = '@' + self.anon(cpt_type)`,
then `name = self.type + cpt_id`.  The schematic is represented by its
auto-naming counter table. -/
def Cpt.init (sch : Option (String → Nat)) (cpt_type cpt_id : String) :
    InitResult :=
  match sch with
  | some m =>
    { id := cpt_id,
      name := cpt_type ++
        (if cpt_id = "" then Cpt.autoId m cpt_type else cpt_id) }
  | none => { id := cpt_id, name := cpt_type ++ cpt_id }

/-- C10: constructing a component with an empty `cpt_id` (the
auto-generate signal) and an owning schematic leaves the `id` attribute
empty while `name` becomes the type followed by the fresh `@`-prefixed id,
so `name` never equals `type ++ id` for auto-named components. -/
theorem C10_auto_named_id_stays_empty (m : String → Nat) (t : String) :
    (Cpt.init (some m) t "").id = "" ∧
    (Cpt.init (some m) t "").name = t ++ ("@" ++ toString (m t + 1)) ∧
    (Cpt.init (some m) t "").name ≠ t ++ (Cpt.init (some m) t "").id := by
  have hid : (Cpt.init (some m) t "").id = "" := rfl
  have hn : (Cpt.init (some m) t "").name =
      t ++ ("@" ++ toString (m t + 1)) := by
    simp [Cpt.init, Cpt.autoId, Cpt.anon]
  refine ⟨hid, hn, ?_⟩
  intro h
  rw [hn, hid] at h
  have hlen := congrArg String.length h
  have hone : ("@" : String).length = 1 := rfl
  simp [String.length_append, hone] at hlen

/-- The local coordinate triples of `Transistor` (`npos`/`ppos` class
attributes; 1.5 = 3/2, 0.75 = 3/4). -/
def Transistor.npos : List (ℚ × ℚ) := [(1, 3/2), (0, 3/4), (1, 0)]

def Transistor.ppos : List (ℚ × ℚ) := [(1, 0), (0, 3/4), (1, 3/2)]

/-- `Transistor.coords`: the polarity subtypes `Qpnp`, `Mpmos`, `Jpjf`
select the opposite triple, XOR the mirror flag.  `npos`/`ppos` are passed
in because Python resolves them on the concrete subclass. -/
def Transistor.coords (classname : String) (mirror : Bool)
    (npos ppos : List (ℚ × ℚ)) : List (ℚ × ℚ) :=
  if classname ∈ ["Qpnp", "Mpmos", "Jpjf"] then
    (if mirror then npos else ppos)
  else
    (if mirror then ppos else npos)

/-- `JFET` overrides (0.48 = 12/25, 1.02 = 51/50). -/
def JFET.npos : List (ℚ × ℚ) := [(1, 3/2), (0, 12/25), (1, 0)]

def JFET.ppos : List (ℚ × ℚ) := [(1, 0), (0, 51/50), (1, 3/2)]

/-- `MOSFET` overrides (0.85 = 17/20, 1.52 = 38/25, 0.76 = 19/25). -/
def MOSFET.npos : List (ℚ × ℚ) := [(17/20, 38/25), (-(1/4), 19/25), (17/20, 0)]

def MOSFET.ppos : List (ℚ × ℚ) := [(17/20, 0), (-(1/4), 19/25), (17/20, 38/25)]

/-- `Opamp` coordinate sets (2.4 = 12/5). -/
def Opamp.ppos : List (ℚ × ℚ) := [(12/5, 0), (0, 1/2), (0, -(1/2))]

def Opamp.npos : List (ℚ × ℚ) := [(12/5, 0), (0, -(1/2)), (0, 1/2)]

/-- `Opamp.coords`: mirror selects `npos`. -/
def Opamp.coords (mirror : Bool) : List (ℚ × ℚ) :=
  if mirror then Opamp.npos else Opamp.ppos

/-- `FDOpamp` coordinate sets (2.05 = 41/20). -/
def FDOpamp.npos : List (ℚ × ℚ) := [(41/20, 1), (41/20, 0), (0, 0), (0, 1)]

def FDOpamp.ppos : List (ℚ × ℚ) :=
  [(41/20, -1), (41/20, 0), (0, 0), (0, -1)]

/-- `FDOpamp.coords`: mirror selects `npos`. -/
def FDOpamp.coords (mirror : Bool) : List (ℚ × ℚ) :=
  if mirror then FDOpamp.npos else FDOpamp.ppos

/-- Pointwise negation of the local y axis. -/
def negY (ps : List (ℚ × ℚ)) : List (ℚ × ℚ) :=
  ps.map (fun p => (p.1, -p.2))

/-- Pointwise reflection of the local y axis about height `h`. -/
def reflectY (h : ℚ) (ps : List (ℚ × ℚ)) : List (ℚ × ℚ) :=
  ps.map (fun p => (p.1, h - p.2))

/-- C9 counterexample: for an NPN transistor (`Q`), the mirrored local
coordinates are not the unmirrored ones with the y axis negated — the
transistor triples are reflected about the symbol's horizontal centerline
instead. -/
theorem C9_counterexample :
    Transistor.coords "Q" true Transistor.npos Transistor.ppos =
      Transistor.ppos ∧
    Transistor.coords "Q" false Transistor.npos Transistor.ppos =
      Transistor.npos ∧
    Transistor.coords "Q" true Transistor.npos Transistor.ppos ≠
      negY (Transistor.coords "Q" false Transistor.npos Transistor.ppos) := by
  have hq : ¬("Q" ∈ ["Qpnp", "Mpmos", "Jpjf"]) := by decide
  refine ⟨?_, ?_, ?_⟩
  · simp only [Transistor.coords, if_neg hq, if_pos]
  · simp only [Transistor.coords, if_neg hq]
    norm_num
  · simp only [Transistor.coords, if_neg hq]
    norm_num [negY, Transistor.npos, Transistor.ppos]

/-- C9 (amended): mirroring is a true reflection of the local point list,
never a no-op: for every transistor-family class name the mirrored
coordinates equal the unmirrored ones reflected about the symbol's
horizontal centerline (`y ↦ h − y` with `h` the symbol height), while for
the op-amp family the mirrored coordinates equal the unmirrored ones with
the y axis negated exactly. -/
theorem C9_mirror_is_true_reflection (classname : String) :
    (Transistor.coords classname true Transistor.npos Transistor.ppos =
      reflectY (3/2)
        (Transistor.coords classname false Transistor.npos Transistor.ppos)) ∧
    (Transistor.coords classname true Transistor.npos Transistor.ppos ≠
      Transistor.coords classname false Transistor.npos Transistor.ppos) ∧
    (Transistor.coords classname true JFET.npos JFET.ppos =
      reflectY (3/2)
        (Transistor.coords classname false JFET.npos JFET.ppos)) ∧
    (Transistor.coords classname true JFET.npos JFET.ppos ≠
      Transistor.coords classname false JFET.npos JFET.ppos) ∧
    (Transistor.coords classname true MOSFET.npos MOSFET.ppos =
      reflectY (38/25)
        (Transistor.coords classname false MOSFET.npos MOSFET.ppos)) ∧
    (Transistor.coords classname true MOSFET.npos MOSFET.ppos ≠
      Transistor.coords classname false MOSFET.npos MOSFET.ppos) ∧
    (Opamp.coords true = negY (Opamp.coords false)) ∧
    (Opamp.coords true ≠ Opamp.coords false) ∧
    (FDOpamp.coords true = negY (FDOpamp.coords false)) ∧
    (FDOpamp.coords true ≠ FDOpamp.coords false) := by
  by_cases hc : classname ∈ ["Qpnp", "Mpmos", "Jpjf"]
  · simp only [Transistor.coords, if_pos hc, Opamp.coords, FDOpamp.coords]
    norm_num [reflectY, negY, Transistor.npos, Transistor.ppos, JFET.npos,
      JFET.ppos, MOSFET.npos, MOSFET.ppos, Opamp.npos, Opamp.ppos,
      FDOpamp.npos, FDOpamp.ppos]
  · simp only [Transistor.coords, if_neg hc, Opamp.coords, FDOpamp.coords]
    norm_num [reflectY, negY, Transistor.npos, Transistor.ppos, JFET.npos,
      JFET.ppos, MOSFET.npos, MOSFET.ppos, Opamp.npos, Opamp.ppos,
      FDOpamp.npos, FDOpamp.ppos]

/-- C8 witness: three auto-ids for type `R` on a fresh schematic are the
strictly increasing integers 1, 2, 3, and the issued id carries the `@`
marker. -/
theorem C8_witness :
    Cpt.anonNums (fun _ => 0) "R" 3 = (List.range 3).map (fun k => k + 1) ∧
    List.Pairwise (· < ·) (Cpt.anonNums (fun _ => 0) "R" 3) ∧
    Cpt.autoId (fun _ => 0) "R" = "@" ++ toString 1 :=
  have h := C8_anon_ids_strictly_increasing "R" 3 (fun _ => 0)
  ⟨h.1, h.2.2.2.1, h.2.2.2.2.2.2⟩

/-- C9 witness: the amended reflection facts at the concrete NPN
transistor class and the op-amp. -/
theorem C9_witness :
    Transistor.coords "Q" true Transistor.npos Transistor.ppos =
      reflectY (3/2)
        (Transistor.coords "Q" false Transistor.npos Transistor.ppos) ∧
    Opamp.coords true = negY (Opamp.coords false) :=
  ⟨(C9_mirror_is_true_reflection "Q").1,
   (C9_mirror_is_true_reflection "Q").2.2.2.2.2.2.1⟩

/-- C10 witness: an auto-named resistor on a fresh schematic is named
`R@1` while its `id` attribute stays empty. -/
theorem C10_witness :
    (Cpt.init (some (fun _ => 0)) "R" "").id = "" ∧
    (Cpt.init (some (fun _ => 0)) "R" "").name = "R" ++ ("@" ++ toString 1) ∧
    (Cpt.init (some (fun _ => 0)) "R" "").name ≠
      "R" ++ (Cpt.init (some (fun _ => 0)) "R" "").id :=
  C10_auto_named_id_stays_empty (fun _ => 0) "R"
